import Mathlib

/-!
Shallow embedding of the CELESC inspection-booking API (`src/server.js`):
the business-day arithmetic, the slot-capacity rules, and the create /
reschedule / complete / availability handlers, together with theorems
checking the specification's claims against this code.

Calendar dates are modelled as natural numbers counting days since the Unix
epoch (1970-01-01, a Thursday), so `dayOfWeek` agrees with JavaScript's
`Date.getUTCDay` (0 = Sunday, ..., 6 = Saturday).  A JavaScript `Date`
timestamp is modelled as `day * MS + millisecondOfDay`; the handlers receive
the current instant as the pair `(hoje, msNow)` with `msNow < MS`.
-/

namespace Celesc

/-- Day of the week of epoch day `d`, as JavaScript `Date.getUTCDay`:
epoch day 0 (1970-01-01) was a Thursday, i.e. weekday 4. -/
def dayOfWeek (d : Nat) : Nat := (d + 4) % 7

/-- Mirrors the weekday test `diaDaSemana !== 0 && diaDaSemana !== 6`
used throughout `src/server.js`. -/
def isDiaUtil (d : Nat) : Bool := dayOfWeek d != 0 && dayOfWeek d != 6

/-- Termination measure for `adicionarDiasUteis`: an upper bound on the number
of loop iterations until the next counted (business) day, read off the weekday
of the current date. -/
def gapMeasure (d : Nat) : Nat :=
  if dayOfWeek d = 5 then 3 else if dayOfWeek d = 6 then 2 else 1

/-- The helper `adicionarDiasUteis(dataInicial, dias)` of `src/server.js`
(lines 118-127): repeatedly step one calendar day forward, counting the step
only when the reached day is Monday-Friday, until `dias` steps are counted. -/
def adicionarDiasUteis (dataInicial : Nat) (dias : Nat) : Nat :=
  if dias = 0 then dataInicial
  else if isDiaUtil (dataInicial + 1) then adicionarDiasUteis (dataInicial + 1) (dias - 1)
  else adicionarDiasUteis (dataInicial + 1) dias
termination_by dias * 3 + gapMeasure dataInicial
decreasing_by
· have h1 : gapMeasure (dataInicial + 1) ≤ 3 := by
    unfold gapMeasure; split_ifs <;> omega
  have h2 : 1 ≤ gapMeasure dataInicial := by
    unfold gapMeasure; split_ifs <;> omega
  omega
· rename_i hdias hutil
  simp only [isDiaUtil, dayOfWeek, Bool.and_eq_true, bne_iff_ne, ne_eq, not_and, not_not] at hutil
  unfold gapMeasure dayOfWeek
  split_ifs <;> omega

/-- Milliseconds in a day; JavaScript `Date` timestamps count milliseconds. -/
def MS : Nat := 86400000

/-- The creation horizon check of `src/server.js` lines 169-176: the selected
date (midnight UTC) is compared against the timestamp "now plus 30 days", so
the request is rejected when `data * MS` exceeds `(hoje + 30) * MS + msNow`. -/
def horizonteExcedido (hoje msNow data : Nat) : Bool :=
  decide ((hoje + 30) * MS + msNow < data * MS)

/-- The minimum lead-time check (`dataSelecionada < dataMinima` where
`dataMinima = adicionarDiasUteis(new Date(), 2)`): the selected date at
midnight UTC is compared against the advanced timestamp, which keeps the
current time of day `msNow`. -/
def antecedenciaInsuficiente (hoje msNow data : Nat) : Bool :=
  decide (data * MS < adicionarDiasUteis hoje 2 * MS + msNow)

/-- One persisted row of the `agendamentos` table (`src/database.sql`). -/
structure Agendamento where
  numero_nota : String
  numero_instalacao : String
  responsavel_pelo_agendamento : String
  localidade : String
  data_original : Nat
  periodo_original : String
  data_atual : Nat
  periodo_atual : String
  status : String
  quantidade_reagendamentos : Nat
  reagendado_em : Option Nat
  criado_em : Nat
  deriving DecidableEq

/-- Request body of `POST /api/agendamentos`.  The six fields are all
required; an absent field is modelled by the empty string (JavaScript
falsiness); the date is modelled as an epoch day and assumed present. -/
structure CreateRequest where
  numero_nota : String
  numero_instalacao : String
  responsavel_pelo_agendamento : String
  localidade : String
  data : Nat
  periodo : String
  deriving DecidableEq

/-- Outcome of the create handler; the HTTP status of each case is given by
`statusHTTPCriar`. -/
inductive CreateResult where
  | missingFields
  | horizonExceeded
  | foraDiaUtil
  | antecedencia
  | notaDuplicada
  | slotFull
  | created (a : Agendamento)
  deriving DecidableEq

/-- HTTP status code returned for each create outcome in `src/server.js`. -/
def statusHTTPCriar : CreateResult → Nat
  | .missingFields => 400
  | .horizonExceeded => 400
  | .foraDiaUtil => 400
  | .antecedencia => 400
  | .notaDuplicada => 409
  | .slotFull => 409
  | .created _ => 201

/-- The field-presence validation of the create handler (line 165):
`!numero_nota || !data || !periodo || !localidade || !responsavel || !instalacao`. -/
def camposFaltando (req : CreateRequest) : Bool :=
  req.numero_nota == "" || req.periodo == "" || req.localidade == "" ||
    req.responsavel_pelo_agendamento == "" || req.numero_instalacao == ""

/-- The slot-occupancy query used by both the create handler (lines 196-199)
and the reschedule handler (lines 286-289):
`SELECT COUNT(*) FROM agendamentos WHERE data_atual = $1 AND periodo_atual = $2 AND localidade = $3`.
Note there is no filter on `status`. -/
def contarVagas (store : List Agendamento) (data : Nat) (periodo localidade : String) : Nat :=
  (store.filter fun a =>
    a.data_atual == data && a.periodo_atual == periodo && a.localidade == localidade).length

/-- The row inserted by the create handler (lines 205-209): original and
current date/period both equal the requested ones; `status` and
`quantidade_reagendamentos` take the table defaults. -/
def novoAgendamento (req : CreateRequest) (agora : Nat) : Agendamento :=
  { numero_nota := req.numero_nota
    numero_instalacao := req.numero_instalacao
    responsavel_pelo_agendamento := req.responsavel_pelo_agendamento
    localidade := req.localidade
    data_original := req.data
    periodo_original := req.periodo
    data_atual := req.data
    periodo_atual := req.periodo
    status := "agendado"
    quantidade_reagendamentos := 0
    reagendado_em := none
    criado_em := agora }

/-- The `POST /api/agendamentos` handler of `src/server.js` (lines 162-218):
field presence, 30-day horizon, weekday, minimum lead time, duplicate note,
slot capacity, then insert. -/
def criarAgendamento (store : List Agendamento) (hoje msNow agora : Nat)
    (req : CreateRequest) : CreateResult × List Agendamento :=
  if camposFaltando req then (.missingFields, store)
  else if horizonteExcedido hoje msNow req.data then (.horizonExceeded, store)
  else if dayOfWeek req.data == 0 || dayOfWeek req.data == 6 then (.foraDiaUtil, store)
  else if antecedenciaInsuficiente hoje msNow req.data then (.antecedencia, store)
  else if store.any (fun a => a.numero_nota == req.numero_nota) then (.notaDuplicada, store)
  else if 2 ≤ contarVagas store req.data req.periodo req.localidade then (.slotFull, store)
  else (.created (novoAgendamento req agora), store ++ [novoAgendamento req agora])

/-- Outcome of the reschedule handler; HTTP statuses in `statusHTTPReagendar`. -/
inductive ReagendarResult where
  | missingFields
  | foraDiaUtil
  | antecedencia
  | notFound
  | bloqueado
  | slotFull
  | ok (a : Agendamento)
  deriving DecidableEq

/-- HTTP status code returned for each reschedule outcome in `src/server.js`. -/
def statusHTTPReagendar : ReagendarResult → Nat
  | .missingFields => 400
  | .foraDiaUtil => 400
  | .antecedencia => 400
  | .notFound => 404
  | .bloqueado => 403
  | .slotFull => 409
  | .ok _ => 200

/-- The row update performed by the reschedule handler (lines 295-300):
`SET data_atual = $1, periodo_atual = $2, status = 'reagendado',
quantidade_reagendamentos = 1, reagendado_em = NOW()`. -/
def reagendarAtualiza (data : Nat) (periodo : String) (agora : Nat)
    (a : Agendamento) : Agendamento :=
  { a with data_atual := data, periodo_atual := periodo, status := "reagendado",
           quantidade_reagendamentos := 1, reagendado_em := some agora }

/-- The `POST /api/agendamentos/:nota/reagendar` handler of `src/server.js`
(lines 256-309): field presence, weekday, minimum lead time, lookup,
eligibility (`quantidade_reagendamentos > 0 || status === 'concluido'`),
slot capacity (note: no 30-day horizon check), then update. -/
def reagendar (store : List Agendamento) (hoje msNow agora : Nat) (nota : String)
    (data : Nat) (periodo : String) : ReagendarResult × List Agendamento :=
  if periodo == "" then (.missingFields, store)
  else if dayOfWeek data == 0 || dayOfWeek data == 6 then (.foraDiaUtil, store)
  else if antecedenciaInsuficiente hoje msNow data then (.antecedencia, store)
  else match store.find? (fun a => a.numero_nota == nota) with
    | none => (.notFound, store)
    | some ag =>
      if 0 < ag.quantidade_reagendamentos ∨ ag.status = "concluido" then (.bloqueado, store)
      else if 2 ≤ contarVagas store data periodo ag.localidade then (.slotFull, store)
      else (.ok (reagendarAtualiza data periodo agora ag),
            store.map fun a =>
              if a.numero_nota == nota then reagendarAtualiza data periodo agora a else a)

/-- Outcome of the back-office complete handler. -/
inductive ConcluirResult where
  | notFound
  | ok (a : Agendamento)
  deriving DecidableEq

/-- The row update performed by the complete handler:
`SET status = 'concluido'`. -/
def concluirAtualiza (a : Agendamento) : Agendamento := { a with status := "concluido" }

/-- The `POST /api/backoffice/agendamentos/:nota/concluir` handler of
`src/server.js` (lines 372-387): an unconditional
`UPDATE agendamentos SET status = 'concluido' WHERE numero_nota = $1 RETURNING *`,
with 404 only when no row matches. -/
def concluirAgendamento (store : List Agendamento) (nota : String) :
    ConcluirResult × List Agendamento :=
  match store.find? (fun a => a.numero_nota == nota) with
  | none => (.notFound, store)
  | some ag =>
    (.ok (concluirAtualiza ag),
     store.map fun a => if a.numero_nota == nota then concluirAtualiza a else a)

/-- The row filter of the availability query (`src/server.js` lines 16-22):
`localidade = $1 AND status != 'concluido' AND data_atual >= CURRENT_DATE`. -/
def filtroDisponibilidade (localidade : String) (hoje : Nat) (a : Agendamento) : Bool :=
  a.localidade == localidade && a.status != "concluido" && decide (hoje ≤ a.data_atual)

/-- The per-group `COUNT(*)` of the availability query for one
`(data_atual, periodo_atual)` group. -/
def contagemSlot (store : List Agendamento) (localidade : String) (hoje data : Nat)
    (periodo : String) : Nat :=
  (store.filter fun a =>
    filtroDisponibilidade localidade hoje a && a.data_atual == data &&
      a.periodo_atual == periodo).length

/-- For a given date, the periods placed in `turnosIndisponiveis[date]` by the
availability handler (lines 27-37): the distinct period values present among
the filtered rows of that date whose group count is at least 2. -/
def turnosIndisponiveisData (store : List Agendamento) (localidade : String)
    (hoje data : Nat) : List String :=
  (((store.filter fun a =>
      filtroDisponibilidade localidade hoje a && a.data_atual == data).map
        (fun a => a.periodo_atual)).dedup).filter
    fun p => decide (2 ≤ contagemSlot store localidade hoje data p)

/-- The `diasLotados` membership test of the availability handler (lines
39-43): a date is fully booked when at least 2 periods are unavailable. -/
def diaLotado (store : List Agendamento) (localidade : String) (hoje data : Nat) : Bool :=
  decide (2 ≤ (turnosIndisponiveisData store localidade hoje data).length)

/-- Modelled from the spec: `occupancyCount`, "number of non-completed
bookings already at that date+period+locality".  The server source contains no
status filter in its capacity query; this definition follows the spec's words
and is compared against `contarVagas`. -/
def ocupacaoNaoConcluida (store : List Agendamento) (data : Nat)
    (periodo localidade : String) : Nat :=
  (store.filter fun a =>
    a.data_atual == data && a.periodo_atual == periodo &&
      a.localidade == localidade && a.status != "concluido").length

/-- Modelled from the spec: the note-number pattern "709 plus 8 digits, 11
digits total".  The server source contains no such format check; this
definition exists only to state claim C7. -/
def notaFormatoValido (s : String) : Bool :=
  s.data.take 3 == ['7', '0', '9'] && s.data.length == 11 &&
    s.data.all fun c => 48 ≤ c.toNat && c.toNat ≤ 57

/-- Test fixture: a booking row with the given note number, slot and status;
the remaining free-text fields are fixed. -/
def mkAg (nota : String) (data : Nat) (periodo localidade status : String)
    (quantidade : Nat) : Agendamento :=
  { numero_nota := nota
    numero_instalacao := "1"
    responsavel_pelo_agendamento := "R"
    localidade := localidade
    data_original := data
    periodo_original := periodo
    data_atual := data
    periodo_atual := periodo
    status := status
    quantidade_reagendamentos := quantidade
    reagendado_em := none
    criado_em := 0 }

/-- Fixture: a completed booking occupying slot (day 8, manha, Criciuma). -/
def agOcupadoA : Agendamento := mkAg "70900000001" 8 "manha" "Criciuma" "concluido" 0

/-- Fixture: a second completed booking at the same slot. -/
def agOcupadoB : Agendamento := mkAg "70900000002" 8 "manha" "Criciuma" "concluido" 0

/-- Fixture: an eligible scheduled booking at slot (day 8, manha, Criciuma). -/
def agLivre : Agendamento := mkAg "70900000009" 8 "manha" "Criciuma" "agendado" 0

/-- Fixture: another scheduled booking at the same slot as `agLivre`. -/
def agOutro : Agendamento := mkAg "70900000010" 8 "manha" "Criciuma" "agendado" 0

/-- Fixture: a booking whose single allowed reschedule is already used up. -/
def agUsado : Agendamento := mkAg "70900000011" 8 "manha" "Criciuma" "agendado" 1

/-- Fixture: a completed booking, reschedule count still 0. -/
def agConcluido : Agendamento := mkAg "70900000012" 8 "manha" "Criciuma" "concluido" 0

/-- Fixtures: four non-completed bookings filling both periods of day 8. -/
def agManhaA : Agendamento := mkAg "70900000021" 8 "manha" "Criciuma" "agendado" 0

def agManhaB : Agendamento := mkAg "70900000022" 8 "manha" "Criciuma" "agendado" 0

def agTardeA : Agendamento := mkAg "70900000023" 8 "tarde" "Criciuma" "agendado" 0

def agTardeB : Agendamento := mkAg "70900000024" 8 "tarde" "Criciuma" "reagendado" 0

/-- Fixture: a create request for day 8 (a Friday), period manha. -/
def reqCriacao : CreateRequest :=
  { numero_nota := "70900000003", numero_instalacao := "1",
    responsavel_pelo_agendamento := "R", localidade := "Criciuma",
    data := 8, periodo := "manha" }

/-- Fixture: a create request for day 45, a Sunday more than 30 days after
day 4. -/
def reqFimDeSemanaLonge : CreateRequest :=
  { numero_nota := "70900000004", numero_instalacao := "1",
    responsavel_pelo_agendamento := "R", localidade := "Criciuma",
    data := 45, periodo := "manha" }

/-- Fixture: a create request for day 52, also a Sunday beyond the horizon. -/
def reqFimDeSemanaLonge2 : CreateRequest :=
  { numero_nota := "70900000005", numero_instalacao := "1",
    responsavel_pelo_agendamento := "R", localidade := "Criciuma",
    data := 52, periodo := "manha" }

/-- Fixture: a create request whose note number "12345" does not match the
pattern 709 plus 8 digits. -/
def reqNotaCurta : CreateRequest :=
  { numero_nota := "12345", numero_instalacao := "1",
    responsavel_pelo_agendamento := "R", localidade := "Criciuma",
    data := 8, periodo := "manha" }

/-- Fixture: an 11-digit note number that does not start with 709. -/
def reqNotaErrada : CreateRequest :=
  { numero_nota := "99999999999", numero_instalacao := "1",
    responsavel_pelo_agendamento := "R", localidade := "Criciuma",
    data := 8, periodo := "manha" }

/-- Fixture: the row inserted by a successful `reqCriacao` create at instant 0. -/
def agCriado : Agendamento := novoAgendamento reqCriacao 0

/-- Fixture: `agCriado` after a successful reschedule to (day 11, tarde) at
instant 7. -/
def agRemarcado : Agendamento := reagendarAtualiza 11 "tarde" 7 agCriado

theorem isDiaUtil_true_iff (d : Nat) :
    isDiaUtil d = true ↔ ((d + 4) % 7 ≠ 0 ∧ (d + 4) % 7 ≠ 6) := by
  simp [isDiaUtil, dayOfWeek]

theorem isDiaUtil_false_iff (d : Nat) :
    isDiaUtil d = false ↔ ((d + 4) % 7 = 0 ∨ (d + 4) % 7 = 6) := by
  rw [← Bool.not_eq_true, isDiaUtil_true_iff]
  tauto

theorem adicionarDiasUteis_zero (d : Nat) : adicionarDiasUteis d 0 = d := by
  unfold adicionarDiasUteis
  simp

theorem adicionarDiasUteis_count (d n m : Nat) (hn : n = m + 1)
    (h : isDiaUtil (d + 1) = true) :
    adicionarDiasUteis d n = adicionarDiasUteis (d + 1) m := by
  subst hn
  conv_lhs => rw [adicionarDiasUteis.eq_def]
  simp [h]

theorem adicionarDiasUteis_skip (d n : Nat) (hn : n ≠ 0)
    (h : isDiaUtil (d + 1) = false) :
    adicionarDiasUteis d n = adicionarDiasUteis (d + 1) n := by
  conv_lhs => rw [adicionarDiasUteis.eq_def]
  simp [h, hn]

/-- Closed form of two business-day advancement, by the weekday of the start
day: Thursday and Friday advance four calendar days, Saturday three, any
other day two. -/
theorem adicionarDiasUteis_dois (d : Nat) :
    adicionarDiasUteis d 2 =
      if dayOfWeek d = 4 ∨ dayOfWeek d = 5 then d + 4
      else if dayOfWeek d = 6 then d + 3 else d + 2 := by
  have h7 : (d + 4) % 7 = 0 ∨ (d + 4) % 7 = 1 ∨ (d + 4) % 7 = 2 ∨ (d + 4) % 7 = 3 ∨
      (d + 4) % 7 = 4 ∨ (d + 4) % 7 = 5 ∨ (d + 4) % 7 = 6 := by omega
  rcases h7 with h | h | h | h | h | h | h
  · rw [adicionarDiasUteis_count d 2 1 rfl ((isDiaUtil_true_iff _).2 (by omega)),
      adicionarDiasUteis_count (d + 1) 1 0 rfl ((isDiaUtil_true_iff _).2 (by omega)),
      adicionarDiasUteis_zero]
    unfold dayOfWeek
    split_ifs <;> omega
  · rw [adicionarDiasUteis_count d 2 1 rfl ((isDiaUtil_true_iff _).2 (by omega)),
      adicionarDiasUteis_count (d + 1) 1 0 rfl ((isDiaUtil_true_iff _).2 (by omega)),
      adicionarDiasUteis_zero]
    unfold dayOfWeek
    split_ifs <;> omega
  · rw [adicionarDiasUteis_count d 2 1 rfl ((isDiaUtil_true_iff _).2 (by omega)),
      adicionarDiasUteis_count (d + 1) 1 0 rfl ((isDiaUtil_true_iff _).2 (by omega)),
      adicionarDiasUteis_zero]
    unfold dayOfWeek
    split_ifs <;> omega
  · rw [adicionarDiasUteis_count d 2 1 rfl ((isDiaUtil_true_iff _).2 (by omega)),
      adicionarDiasUteis_count (d + 1) 1 0 rfl ((isDiaUtil_true_iff _).2 (by omega)),
      adicionarDiasUteis_zero]
    unfold dayOfWeek
    split_ifs <;> omega
  · rw [adicionarDiasUteis_count d 2 1 rfl ((isDiaUtil_true_iff _).2 (by omega)),
      adicionarDiasUteis_skip (d + 1) 1 (by omega) ((isDiaUtil_false_iff _).2 (by omega)),
      adicionarDiasUteis_skip (d + 2) 1 (by omega) ((isDiaUtil_false_iff _).2 (by omega)),
      adicionarDiasUteis_count (d + 3) 1 0 rfl ((isDiaUtil_true_iff _).2 (by omega)),
      adicionarDiasUteis_zero]
    unfold dayOfWeek
    split_ifs <;> omega
  · rw [adicionarDiasUteis_skip d 2 (by omega) ((isDiaUtil_false_iff _).2 (by omega)),
      adicionarDiasUteis_skip (d + 1) 2 (by omega) ((isDiaUtil_false_iff _).2 (by omega)),
      adicionarDiasUteis_count (d + 2) 2 1 rfl ((isDiaUtil_true_iff _).2 (by omega)),
      adicionarDiasUteis_count (d + 3) 1 0 rfl ((isDiaUtil_true_iff _).2 (by omega)),
      adicionarDiasUteis_zero]
    unfold dayOfWeek
    split_ifs <;> omega
  · rw [adicionarDiasUteis_skip d 2 (by omega) ((isDiaUtil_false_iff _).2 (by omega)),
      adicionarDiasUteis_count (d + 1) 2 1 rfl ((isDiaUtil_true_iff _).2 (by omega)),
      adicionarDiasUteis_count (d + 2) 1 0 rfl ((isDiaUtil_true_iff _).2 (by omega)),
      adicionarDiasUteis_zero]
    unfold dayOfWeek
    split_ifs <;> omega

theorem adicionarDiasUteis_4_2 : adicionarDiasUteis 4 2 = 6 := by
  rw [adicionarDiasUteis_dois]
  norm_num [dayOfWeek]

/-- Specialisation of the lead-time check to the concrete instant used by the
witnesses: day 4 (a Monday) at midnight; `adicionarDiasUteis 4 2 = 6`. -/
theorem antecedenciaInsuficiente_4_0 (data : Nat) :
    antecedenciaInsuficiente 4 0 data = decide (data < 6) := by
  unfold antecedenciaInsuficiente
  rw [adicionarDiasUteis_4_2]
  refine decide_eq_decide.2 ?_
  unfold MS
  omega

theorem two_le_length_of_mem {α : Type} {l : List α} {a b : α}
    (ha : a ∈ l) (hb : b ∈ l) (hab : a ≠ b) : 2 ≤ l.length := by
  match l with
  | [] => exact absurd ha (by simp)
  | [x] =>
    have ha' : a = x := by simpa using ha
    have hb' : b = x := by simpa using hb
    exact absurd (ha'.trans hb'.symm) hab
  | x :: y :: t =>
    simp only [List.length_cons]
    omega

theorem mem_pair_of_nodup {l : List String} {A B : String} (hnd : l.Nodup)
    (hlen : 2 ≤ l.length) (hsub : ∀ x ∈ l, x = A ∨ x = B) : A ∈ l ∧ B ∈ l := by
  match l with
  | [] => simp at hlen
  | [x] => simp at hlen
  | x :: y :: t =>
    have hx := hsub x (by simp)
    have hy := hsub y (by simp)
    have hxy : x ≠ y := by
      rcases List.nodup_cons.1 hnd with ⟨hxmem, _⟩
      intro he
      exact hxmem (he ▸ List.mem_cons_self y t)
    rcases hx with hx | hx <;> rcases hy with hy | hy
    · exact absurd (hx.trans hy.symm) hxy
    · subst hx; subst hy
      exact ⟨by simp, by simp⟩
    · subst hx; subst hy
      exact ⟨by simp, by simp⟩
    · exact absurd (hx.trans hy.symm) hxy

/-- C2: the business-day advancement with N = 2 always lands on a weekday;
from a Friday it yields the following Tuesday (four calendar days later).
Amended: from a Saturday it yields the following Tuesday (three calendar days
later), not the following Wednesday as the original claim stated. -/
theorem claim_C2 (d : Nat) :
    isDiaUtil (adicionarDiasUteis d 2) = true ∧
    (dayOfWeek d = 5 → adicionarDiasUteis d 2 = d + 4 ∧ dayOfWeek (d + 4) = 2) ∧
    (dayOfWeek d = 6 → adicionarDiasUteis d 2 = d + 3 ∧ dayOfWeek (d + 3) = 2) := by
  rw [adicionarDiasUteis_dois]
  unfold dayOfWeek
  refine ⟨?_, ?_, ?_⟩
  · split_ifs <;> rw [isDiaUtil_true_iff] <;> omega
  · intro h
    refine ⟨?_, by omega⟩
    split_ifs <;> omega
  · intro h
    refine ⟨?_, by omega⟩
    split_ifs <;> omega

/-- C2 counterexample: day 2 is a Saturday; advancing two business days from
it yields day 5, a Tuesday — not day 6, the following Wednesday, as the claim
states. -/
theorem claim_C2_cx :
    dayOfWeek 2 = 6 ∧ adicionarDiasUteis 2 2 = 5 ∧ dayOfWeek 5 = 2 ∧
      dayOfWeek 6 = 3 ∧ adicionarDiasUteis 2 2 ≠ 6 := by
  have h := adicionarDiasUteis_dois 2
  norm_num [dayOfWeek] at h
  exact ⟨by decide, h, by decide, by decide, by omega⟩

/-- C2 witness: day 1 is a Friday; two business days later is day 5 = 1 + 4,
a Tuesday, and it is a weekday. -/
theorem claim_C2_wit :
    isDiaUtil (adicionarDiasUteis 1 2) = true ∧ adicionarDiasUteis 1 2 = 1 + 4 ∧
      dayOfWeek (1 + 4) = 2 :=
  ⟨(claim_C2 1).1, (claim_C2 1).2.1 (by decide)⟩

/-- C4 amended: the create handler applies the 30-day horizon check before the
weekend check, so a create request whose date is both a weekend day and beyond
the horizon is rejected with horizon-exceeded, not with non-business-day. -/
theorem claim_C4 (store : List Agendamento) (hoje msNow agora : Nat)
    (req : CreateRequest)
    (h1 : camposFaltando req = false)
    (h2 : horizonteExcedido hoje msNow req.data = true)
    (h3 : (dayOfWeek req.data == 0 || dayOfWeek req.data == 6) = true) :
    (criarAgendamento store hoje msNow agora req).1 = CreateResult.horizonExceeded := by
  unfold criarAgendamento
  simp [h1, h2]

/-- C4 counterexample: day 45 is a Sunday more than 30 days after day 4, yet
the create handler reports horizon-exceeded, not the weekend rejection the
claim predicts. -/
theorem claim_C4_cx :
    (dayOfWeek 45 == 0 || dayOfWeek 45 == 6) = true ∧ 4 + 30 < 45 ∧
    (criarAgendamento [] 4 0 0 reqFimDeSemanaLonge).1 = CreateResult.horizonExceeded ∧
    (criarAgendamento [] 4 0 0 reqFimDeSemanaLonge).1 ≠ CreateResult.foraDiaUtil := by
  refine ⟨by decide, by omega, ?_, ?_⟩ <;>
    · simp only [criarAgendamento]
      decide

/-- C4 witness: day 52, a Sunday beyond the horizon, is rejected with
horizon-exceeded. -/
theorem claim_C4_wit :
    (criarAgendamento [] 4 0 0 reqFimDeSemanaLonge2).1 = CreateResult.horizonExceeded :=
  claim_C4 [] 4 0 0 reqFimDeSemanaLonge2 (by decide) (by decide) (by decide)

/-- C7 amended: creation validates only the presence of the fields, not the
note number's format; a request whose note number fails the 709-plus-8-digits
pattern is still inserted when every actual server-side check passes. -/
theorem claim_C7 (store : List Agendamento) (hoje msNow agora : Nat)
    (req : CreateRequest)
    (hforma : notaFormatoValido req.numero_nota = false)
    (h1 : camposFaltando req = false)
    (h2 : horizonteExcedido hoje msNow req.data = false)
    (h3 : (dayOfWeek req.data == 0 || dayOfWeek req.data == 6) = false)
    (h4 : antecedenciaInsuficiente hoje msNow req.data = false)
    (h5 : store.any (fun a => a.numero_nota == req.numero_nota) = false)
    (h6 : contarVagas store req.data req.periodo req.localidade < 2) :
    criarAgendamento store hoje msNow agora req =
      (CreateResult.created (novoAgendamento req agora),
       store ++ [novoAgendamento req agora]) := by
  unfold criarAgendamento
  rw [h1, h2, h3, h4, h5]
  simp only [Bool.false_eq_true, if_false]
  rw [if_neg (by omega)]

/-- C7 counterexample: the note number "12345" does not match the pattern 709
plus 8 digits, yet the create handler accepts the request and returns 201,
instead of the 400 bad-note-format rejection the claim predicts. -/
theorem claim_C7_cx :
    notaFormatoValido "12345" = false ∧
    (criarAgendamento [] 4 0 0 reqNotaCurta).1 =
      CreateResult.created (novoAgendamento reqNotaCurta 0) ∧
    statusHTTPCriar (criarAgendamento [] 4 0 0 reqNotaCurta).1 = 201 := by
  refine ⟨by decide, ?_, ?_⟩ <;>
    · simp only [criarAgendamento, antecedenciaInsuficiente_4_0]
      decide

/-- C7 witness: the ill-formatted note "99999999999" is created anyway. -/
theorem claim_C7_wit :
    criarAgendamento [] 4 0 0 reqNotaErrada =
      (CreateResult.created (novoAgendamento reqNotaErrada 0),
       [] ++ [novoAgendamento reqNotaErrada 0]) :=
  claim_C7 [] 4 0 0 reqNotaErrada (by decide) (by decide) (by decide) (by decide)
    (by simp only [antecedenciaInsuficiente_4_0]; decide) (by decide) (by decide)

/-- C1 amended: with every earlier check passing, the create and reschedule
handlers reject with slot-full (409) exactly when the number of bookings of
any status — completed bookings included — at the target
(date, period, locality) is at least 2; with at most 1 such booking the
capacity rule accepts. -/
theorem claim_C1 (store : List Agendamento) (hoje msNow agora : Nat)
    (req : CreateRequest) (nota : String) (data : Nat) (periodo : String)
    (ag : Agendamento)
    (hc1 : camposFaltando req = false)
    (hc2 : horizonteExcedido hoje msNow req.data = false)
    (hc3 : (dayOfWeek req.data == 0 || dayOfWeek req.data == 6) = false)
    (hc4 : antecedenciaInsuficiente hoje msNow req.data = false)
    (hc5 : store.any (fun a => a.numero_nota == req.numero_nota) = false)
    (hr1 : (periodo == "") = false)
    (hr2 : (dayOfWeek data == 0 || dayOfWeek data == 6) = false)
    (hr3 : antecedenciaInsuficiente hoje msNow data = false)
    (hr4 : store.find? (fun a => a.numero_nota == nota) = some ag)
    (hr5 : ¬ (0 < ag.quantidade_reagendamentos ∨ ag.status = "concluido")) :
    ((criarAgendamento store hoje msNow agora req).1 = CreateResult.slotFull ↔
      2 ≤ contarVagas store req.data req.periodo req.localidade) ∧
    ((reagendar store hoje msNow agora nota data periodo).1 = ReagendarResult.slotFull ↔
      2 ≤ contarVagas store data periodo ag.localidade) := by
  constructor
  · unfold criarAgendamento
    rw [hc1, hc2, hc3, hc4, hc5]
    simp only [Bool.false_eq_true, if_false]
    split_ifs with h
    · simp [h]
    · simp [h]
  · unfold reagendar
    rw [hr1, hr2, hr3]
    simp only [Bool.false_eq_true, if_false, hr4]
    rw [if_neg hr5]
    split_ifs with h
    · simp [h]
    · simp [h]

/-- C1 counterexample: two completed bookings fill slot (day 8, manha,
Criciuma); the non-completed occupancy of that slot is 0, yet an otherwise
valid create request for it is rejected with slot-full, so completed bookings
do count toward the capacity check. -/
theorem claim_C1_cx :
    (criarAgendamento [agOcupadoA, agOcupadoB] 4 0 0 reqCriacao).1 =
      CreateResult.slotFull ∧
    ocupacaoNaoConcluida [agOcupadoA, agOcupadoB] 8 "manha" "Criciuma" = 0 := by
  constructor
  · simp only [criarAgendamento, antecedenciaInsuficiente_4_0]
    decide
  · decide

/-- C1 witness: a store with a single booking at the slot; both capacity
checks accept (neither equivalence side holds). -/
theorem claim_C1_wit :
    ((criarAgendamento [agLivre] 4 0 0 reqCriacao).1 = CreateResult.slotFull ↔
      2 ≤ contarVagas [agLivre] 8 "manha" "Criciuma") ∧
    ((reagendar [agLivre] 4 0 0 "70900000009" 8 "manha").1 = ReagendarResult.slotFull ↔
      2 ≤ contarVagas [agLivre] 8 "manha" "Criciuma") :=
  claim_C1 [agLivre] 4 0 0 reqCriacao "70900000009" 8 "manha" agLivre
    (by decide) (by decide) (by decide)
    (by simp only [antecedenciaInsuficiente_4_0]; decide)
    (by decide) (by decide) (by decide)
    (by simp only [antecedenciaInsuficiente_4_0]; decide)
    (by decide) (by decide)

/-- C3: a reschedule succeeds only when the looked-up booking has reschedule
count 0 and status other than concluido; a booking with count 1 can never be
rescheduled again, whatever the requested date, and a completed booking can
never be rescheduled even with count 0. -/
theorem claim_C3 (store : List Agendamento) (hoje msNow agora : Nat)
    (nota : String) (b : Agendamento)
    (hb : store.find? (fun a => a.numero_nota == nota) = some b) :
    (∀ data periodo a st2,
      reagendar store hoje msNow agora nota data periodo = (ReagendarResult.ok a, st2) →
        b.quantidade_reagendamentos = 0 ∧ b.status ≠ "concluido") ∧
    (b.quantidade_reagendamentos = 1 → ∀ data periodo a st2,
      reagendar store hoje msNow agora nota data periodo ≠ (ReagendarResult.ok a, st2)) ∧
    (b.status = "concluido" → ∀ data periodo a st2,
      reagendar store hoje msNow agora nota data periodo ≠ (ReagendarResult.ok a, st2)) := by
  have key : ∀ data periodo a st2,
      reagendar store hoje msNow agora nota data periodo = (ReagendarResult.ok a, st2) →
        b.quantidade_reagendamentos = 0 ∧ b.status ≠ "concluido" := by
    intro data periodo a st2 h
    unfold reagendar at h
    simp only [hb] at h
    split_ifs at h with h1 h2 h3 h4 h5
    · simp at h
    · simp at h
    · simp at h
    · simp at h
    · simp at h
    · push_neg at h4
      obtain ⟨h4a, h4b⟩ := h4
      exact ⟨by omega, h4b⟩
  refine ⟨key, ?_, ?_⟩
  · intro hq data periodo a st2 hcon
    have hk := key data periodo a st2 hcon
    omega
  · intro hs data periodo a st2 hcon
    exact (key data periodo a st2 hcon).2 hs

/-- C3 witness: the booking `agUsado` has reschedule count 1, so rescheduling
it to the otherwise valid slot (day 8, manha) cannot succeed. -/
theorem claim_C3_wit :
    reagendar [agUsado] 4 0 0 "70900000011" 8 "manha" ≠ (ReagendarResult.ok agUsado, []) :=
  (claim_C3 [agUsado] 4 0 0 "70900000011" agUsado (by decide)).2.1 (by decide)
    8 "manha" agUsado []

/-- C5 amended: the 30-day horizon rule applies only to creation; the
reschedule handler performs no upper-horizon check, so a reschedule to a
weekday arbitrarily far in the future succeeds whenever the lead-time check,
the eligibility check and the capacity check pass. -/
theorem claim_C5 (store : List Agendamento) (hoje msNow agora : Nat)
    (nota : String) (data : Nat) (periodo : String) (ag : Agendamento)
    (h0 : (periodo == "") = false)
    (h1 : (dayOfWeek data == 0 || dayOfWeek data == 6) = false)
    (h2 : antecedenciaInsuficiente hoje msNow data = false)
    (h3 : store.find? (fun a => a.numero_nota == nota) = some ag)
    (h4 : ¬ (0 < ag.quantidade_reagendamentos ∨ ag.status = "concluido"))
    (h5 : contarVagas store data periodo ag.localidade < 2)
    (h6 : hoje + 30 < data) :
    reagendar store hoje msNow agora nota data periodo =
      (ReagendarResult.ok (reagendarAtualiza data periodo agora ag),
       store.map fun a =>
         if a.numero_nota == nota then reagendarAtualiza data periodo agora a else a) := by
  unfold reagendar
  rw [h0, h1, h2]
  simp only [Bool.false_eq_true, if_false, h3]
  rw [if_neg h4, if_neg (by omega)]

/-- C5 counterexample: day 200 is a weekday 166 days beyond the 30-day
horizon from day 4, yet the reschedule of `agLivre` to it succeeds with 200
instead of being rejected with horizon-exceeded. -/
theorem claim_C5_cx :
    4 + 30 < 200 ∧
    reagendar [agLivre] 4 0 7 "70900000009" 200 "tarde" =
      (ReagendarResult.ok (reagendarAtualiza 200 "tarde" 7 agLivre),
       [reagendarAtualiza 200 "tarde" 7 agLivre]) ∧
    statusHTTPReagendar
      (reagendar [agLivre] 4 0 7 "70900000009" 200 "tarde").1 = 200 := by
  refine ⟨by omega, ?_, ?_⟩ <;>
    · simp only [reagendar, antecedenciaInsuficiente_4_0]
      decide

/-- C5 witness: a reschedule to day 201, also far beyond the horizon,
succeeds. -/
theorem claim_C5_wit :
    reagendar [agLivre] 4 0 7 "70900000009" 201 "tarde" =
      (ReagendarResult.ok (reagendarAtualiza 201 "tarde" 7 agLivre),
       [agLivre].map fun a =>
         if a.numero_nota == "70900000009" then reagendarAtualiza 201 "tarde" 7 a else a) :=
  claim_C5 [agLivre] 4 0 7 "70900000009" 201 "tarde" agLivre (by decide) (by decide)
    (by simp only [antecedenciaInsuficiente_4_0]; decide) (by decide) (by decide)
    (by decide) (by omega)

/-- C6: a successful create stores original and current date/period equal to
the request, with reschedule count 0; a subsequent successful reschedule of
that booking to (d2, p2) yields exactly the created record with only
`data_atual`, `periodo_atual`, `status`, `quantidade_reagendamentos` and
`reagendado_em` changed — in particular the original date and period are
untouched and the count becomes 1. -/
theorem claim_C6 (store store1 store2 : List Agendamento)
    (hoje msNow agora hoje2 msNow2 agora2 : Nat) (req : CreateRequest)
    (a a2 : Agendamento) (d2 : Nat) (p2 : String)
    (h1 : criarAgendamento store hoje msNow agora req = (CreateResult.created a, store1))
    (h2 : reagendar store1 hoje2 msNow2 agora2 req.numero_nota d2 p2 =
      (ReagendarResult.ok a2, store2)) :
    a.data_original = req.data ∧ a.data_atual = req.data ∧
    a.periodo_original = req.periodo ∧ a.periodo_atual = req.periodo ∧
    a.quantidade_reagendamentos = 0 ∧
    a2 = { a with data_atual := d2, periodo_atual := p2, status := "reagendado",
                  quantidade_reagendamentos := 1, reagendado_em := some agora2 } ∧
    a2.data_original = req.data ∧ a2.periodo_original = req.periodo := by
  unfold criarAgendamento at h1
  split_ifs at h1 with k1 k2 k3 k4 k5 k6 <;> try simp at h1
  obtain ⟨ha, hs1⟩ := h1
  subst hs1
  subst ha
  have hnone : store.find? (fun x => x.numero_nota == req.numero_nota) = none := by
    rw [List.find?_eq_none]
    intro x hx hpx
    exact k5 (List.any_eq_true.2 ⟨x, hx, hpx⟩)
  have hfind : (store ++ [novoAgendamento req agora]).find?
      (fun x => x.numero_nota == req.numero_nota) = some (novoAgendamento req agora) := by
    rw [List.find?_append, hnone]
    simp [novoAgendamento]
  unfold reagendar at h2
  simp only [hfind] at h2
  split_ifs at h2 with m1 m2 m3 m4 m5 <;> try simp at h2
  obtain ⟨ha2, hs2⟩ := h2
  subst ha2
  exact ⟨rfl, rfl, rfl, rfl, rfl, rfl, rfl, rfl⟩

/-- C6 witness: creating with `reqCriacao` (day 8, manha) and then
rescheduling to (day 11, tarde) at instant 7 yields `agRemarcado`, which keeps
the original date and period of `agCriado` and has count 1. -/
theorem claim_C6_wit :
    agCriado.data_original = reqCriacao.data ∧ agCriado.data_atual = reqCriacao.data ∧
    agCriado.periodo_original = reqCriacao.periodo ∧
    agCriado.periodo_atual = reqCriacao.periodo ∧
    agCriado.quantidade_reagendamentos = 0 ∧
    agRemarcado = { agCriado with data_atual := 11, periodo_atual := "tarde",
                                  status := "reagendado", quantidade_reagendamentos := 1,
                                  reagendado_em := some 7 } ∧
    agRemarcado.data_original = reqCriacao.data ∧
    agRemarcado.periodo_original = reqCriacao.periodo :=
  claim_C6 [] [agCriado] [agRemarcado] 4 0 0 4 0 7 reqCriacao agCriado agRemarcado
    11 "tarde"
    (by simp only [criarAgendamento, antecedenciaInsuficiente_4_0]; decide)
    (by simp only [reagendar, antecedenciaInsuficiente_4_0]; decide)

/-- C8: in the availability report, a date is in `diasLotados` exactly when
both of the two offered periods (manha and tarde) individually have at least
2 non-completed bookings on or after today at that locality. -/
theorem claim_C8 (store : List Agendamento) (localidade : String) (hoje data : Nat)
    (hp : store.all
      (fun a => a.periodo_atual == "manha" || a.periodo_atual == "tarde") = true) :
    (diaLotado store localidade hoje data = true ↔
      (2 ≤ contagemSlot store localidade hoje data "manha" ∧
       2 ≤ contagemSlot store localidade hoje data "tarde")) := by
  have hp' : ∀ a ∈ store, a.periodo_atual = "manha" ∨ a.periodo_atual = "tarde" := by
    intro a ha
    have h := List.all_eq_true.1 hp a ha
    simpa using h
  unfold diaLotado
  rw [decide_eq_true_iff]
  constructor
  · intro hlen
    have hnd : (turnosIndisponiveisData store localidade hoje data).Nodup :=
      (List.nodup_dedup _).filter _
    have hmem : ∀ p ∈ turnosIndisponiveisData store localidade hoje data,
        (p = "manha" ∨ p = "tarde") ∧ 2 ≤ contagemSlot store localidade hoje data p := by
      intro p hpmem
      unfold turnosIndisponiveisData at hpmem
      rw [List.mem_filter] at hpmem
      obtain ⟨hpd, hpc⟩ := hpmem
      rw [List.mem_dedup, List.mem_map] at hpd
      obtain ⟨a, hain, hap⟩ := hpd
      rw [List.mem_filter] at hain
      exact ⟨hap ▸ hp' a hain.1, by simpa using hpc⟩
    obtain ⟨hA, hB⟩ := mem_pair_of_nodup hnd hlen (fun x hx => (hmem x hx).1)
    exact ⟨(hmem _ hA).2, (hmem _ hB).2⟩
  · rintro ⟨hm, ht⟩
    have hk : ∀ p : String, 2 ≤ contagemSlot store localidade hoje data p →
        p ∈ turnosIndisponiveisData store localidade hoje data := by
      intro p hcnt
      unfold turnosIndisponiveisData
      rw [List.mem_filter]
      refine ⟨?_, by simpa using hcnt⟩
      rw [List.mem_dedup, List.mem_map]
      unfold contagemSlot at hcnt
      have hpos : 0 < (store.filter fun a =>
          filtroDisponibilidade localidade hoje a && a.data_atual == data &&
            a.periodo_atual == p).length := by omega
      obtain ⟨a, hain⟩ := List.exists_mem_of_length_pos hpos
      rw [List.mem_filter] at hain
      obtain ⟨has, hcond⟩ := hain
      simp only [Bool.and_eq_true, beq_iff_eq] at hcond
      refine ⟨a, ?_, hcond.2⟩
      rw [List.mem_filter]
      refine ⟨has, ?_⟩
      simp [hcond.1.1, hcond.1.2]
    exact two_le_length_of_mem (hk _ hm) (hk _ ht) (by decide)

/-- C8 witness: on day 8 both periods carry two non-completed bookings, so
day 8 is reported fully booked, matching the per-period counts. -/
theorem claim_C8_wit :
    (diaLotado [agManhaA, agManhaB, agTardeA, agTardeB] "Criciuma" 4 8 = true ↔
      (2 ≤ contagemSlot [agManhaA, agManhaB, agTardeA, agTardeB] "Criciuma" 4 8 "manha" ∧
       2 ≤ contagemSlot [agManhaA, agManhaB, agTardeA, agTardeB] "Criciuma" 4 8 "tarde")) :=
  claim_C8 [agManhaA, agManhaB, agTardeA, agTardeB] "Criciuma" 4 8 (by decide)

/-- C9: the complete operation sets status to concluido and changes no other
field of the returned booking; applied to a booking already concluido (with
unique note numbers) it succeeds again and leaves both the record and the
store unchanged. -/
theorem claim_C9 (store : List Agendamento) (nota : String) (b : Agendamento)
    (hfind : store.find? (fun a => a.numero_nota == nota) = some b) :
    concluirAgendamento store nota =
      (ConcluirResult.ok (concluirAtualiza b),
       store.map fun a => if a.numero_nota == nota then concluirAtualiza a else a) ∧
    ((concluirAtualiza b).status = "concluido" ∧
     (concluirAtualiza b).numero_nota = b.numero_nota ∧
     (concluirAtualiza b).numero_instalacao = b.numero_instalacao ∧
     (concluirAtualiza b).responsavel_pelo_agendamento = b.responsavel_pelo_agendamento ∧
     (concluirAtualiza b).localidade = b.localidade ∧
     (concluirAtualiza b).data_original = b.data_original ∧
     (concluirAtualiza b).periodo_original = b.periodo_original ∧
     (concluirAtualiza b).data_atual = b.data_atual ∧
     (concluirAtualiza b).periodo_atual = b.periodo_atual ∧
     (concluirAtualiza b).quantidade_reagendamentos = b.quantidade_reagendamentos ∧
     (concluirAtualiza b).reagendado_em = b.reagendado_em ∧
     (concluirAtualiza b).criado_em = b.criado_em) ∧
    (b.status = "concluido" → (store.map (fun a => a.numero_nota)).Nodup →
      concluirAgendamento store nota = (ConcluirResult.ok b, store)) := by
  have h1 : concluirAgendamento store nota =
      (ConcluirResult.ok (concluirAtualiza b),
       store.map fun a => if a.numero_nota == nota then concluirAtualiza a else a) := by
    unfold concluirAgendamento
    simp only [hfind]
  refine ⟨h1, ⟨rfl, rfl, rfl, rfl, rfl, rfl, rfl, rfl, rfl, rfl, rfl, rfl⟩, ?_⟩
  intro hs hnd
  have hbmem : b ∈ store := List.mem_of_find?_eq_some hfind
  have hbeq : b.numero_nota = nota := by simpa using List.find?_some hfind
  have hcb : concluirAtualiza b = b := by
    unfold concluirAtualiza
    rw [← hs]
  have hmap : (store.map fun a =>
      if a.numero_nota == nota then concluirAtualiza a else a) = store := by
    have hcongr : ∀ a ∈ store,
        (if a.numero_nota == nota then concluirAtualiza a else a) = id a := by
      intro a ha
      by_cases hcase : (a.numero_nota == nota) = true
      · have haeq : a = b := by
          apply List.inj_on_of_nodup_map hnd ha hbmem
          have hk : a.numero_nota = nota := by simpa using hcase
          rw [hk, hbeq]
        subst haeq
        simp [hcase, hcb]
      · simp [hcase]
    rw [List.map_congr_left hcongr, List.map_id]
  rw [h1, hcb, hmap]

/-- C9 witness: completing the already-completed booking `agConcluido`
succeeds and changes nothing. -/
theorem claim_C9_wit :
    concluirAgendamento [agConcluido] "70900000012" =
      (ConcluirResult.ok agConcluido, [agConcluido]) :=
  (claim_C9 [agConcluido] "70900000012" agConcluido (by decide)).2.2
    (by decide) (by decide)

/-- C10: the reschedule capacity query does not exclude the booking being
rescheduled: when it sits at its own target slot and the total count there,
itself included, is 2, the reschedule to that same (date, period) is rejected
with slot-full (409). -/
theorem claim_C10 (store : List Agendamento) (hoje msNow agora : Nat)
    (nota periodo : String) (b : Agendamento)
    (h0 : (periodo == "") = false)
    (hfind : store.find? (fun a => a.numero_nota == nota) = some b)
    (hw : (dayOfWeek b.data_atual == 0 || dayOfWeek b.data_atual == 6) = false)
    (hl : antecedenciaInsuficiente hoje msNow b.data_atual = false)
    (he : ¬ (0 < b.quantidade_reagendamentos ∨ b.status = "concluido"))
    (hp : periodo = b.periodo_atual)
    (hcount : contarVagas store b.data_atual b.periodo_atual b.localidade = 2) :
    (reagendar store hoje msNow agora nota b.data_atual periodo).1 =
      ReagendarResult.slotFull ∧
    statusHTTPReagendar
      (reagendar store hoje msNow agora nota b.data_atual periodo).1 = 409 := by
  subst hp
  have hrun : reagendar store hoje msNow agora nota b.data_atual b.periodo_atual =
      (ReagendarResult.slotFull, store) := by
    unfold reagendar
    rw [h0, hw, hl]
    simp only [Bool.false_eq_true, if_false, hfind]
    rw [if_neg he, if_pos (by omega)]
  rw [hrun]
  exact ⟨rfl, rfl⟩

/-- C10 witness: `agLivre` and `agOutro` both occupy (day 8, manha,
Criciuma); rescheduling `agLivre` onto its own slot is rejected slot-full. -/
theorem claim_C10_wit :
    (reagendar [agLivre, agOutro] 4 0 0 "70900000009" 8 "manha").1 =
      ReagendarResult.slotFull ∧
    statusHTTPReagendar
      (reagendar [agLivre, agOutro] 4 0 0 "70900000009" 8 "manha").1 = 409 :=
  claim_C10 [agLivre, agOutro] 4 0 0 "70900000009" "manha" agLivre (by decide)
    (by decide) (by decide)
    (by simp only [antecedenciaInsuficiente_4_0]; decide)
    (by decide) (by decide) (by decide)

end Celesc
